import Mathlib

/-!
Verification of the transferability classifier of crates/cust_core/src/lib.rs.

The source is a set of Rust trait impls for the marker trait DeviceCopy
(declared at line 62 as: pub unsafe trait DeviceCopy: Copy). We embed a
closed universe of the Rust types the impl set speaks about as the
inductive type Ty, transcribe the impl set itself as the inductive
predicate DeviceCopy (one constructor per impl, the macro lists kept as
verbatim lists), and give the computable classifier is_transferable,
proved equivalent to the inductive transcription. Feature gates
(vek / glam / mint) are modelled by the structure Config.
-/

namespace Cust

/-- The closed universe of Rust types the impl set of the source file
ranges over: the primitive and NonZero base types of lines 72 to 79
(with the signed NonZero wrappers present in the universe so their
absence from the impl list is expressible), the composite shapes of
lines 80 to 124, reference, raw pointer and Vec shapes (never admitted),
the vek shapes of lines 146 to 151, the glam types of lines 154 to 156,
and the mint shapes of lines 159 to 164 parameterized by element type. -/
inductive Ty where
  | usize | u8 | u16 | u32 | u64 | u128
  | isize | i8 | i16 | i32 | i64 | i128
  | f32 | f64
  | bool | char
  | nonZeroU8 | nonZeroU16 | nonZeroU32 | nonZeroU64 | nonZeroU128
  | nonZeroUsize | nonZeroIsize
  | nonZeroI8 | nonZeroI16 | nonZeroI32 | nonZeroI64 | nonZeroI128
  | option (t : Ty)
  | result (l r : Ty)
  | phantomData (t : Ty)
  | wrapping (t : Ty)
  | array (t : Ty) (n : Nat)
  | unit
  | tuple2 (a b : Ty)
  | tuple3 (a b c : Ty)
  | tuple4 (a b c d : Ty)
  | tuple5 (a b c d e : Ty)
  | tuple6 (a b c d e f : Ty)
  | tuple7 (a b c d e f g : Ty)
  | tuple8 (a b c d e f g h : Ty)
  | ref (t : Ty)
  | rawPtr (t : Ty)
  | vec (t : Ty)
  | vekVec2 (t : Ty) | vekVec3 (t : Ty) | vekVec4 (t : Ty)
  | vekExtent2 (t : Ty) | vekExtent3 (t : Ty)
  | vekRgb (t : Ty) | vekRgba (t : Ty)
  | vekMat2 (t : Ty) | vekMat3 (t : Ty) | vekMat4 (t : Ty)
  | vekCubicBezier2 (t : Ty) | vekCubicBezier3 (t : Ty)
  | vekQuaternion (t : Ty)
  | glamVec2 | glamVec3 | glamVec4 | glamIVec2 | glamIVec3 | glamIVec4
  | mintVector2 (t : Ty) | mintVector3 (t : Ty) | mintVector4 (t : Ty)
  | mintColumnMatrix2 (t : Ty) | mintColumnMatrix3 (t : Ty)
  | mintColumnMatrix4 (t : Ty) | mintColumnMatrix3x4 (t : Ty)
  | mintRowMatrix2 (t : Ty) | mintRowMatrix3 (t : Ty)
  | mintRowMatrix4 (t : Ty) | mintRowMatrix3x4 (t : Ty)

/-- The cargo feature gates of the source file: vek (line 142),
glam (line 153) and mint (line 158). -/
structure Config where
  vek : Bool
  glam : Bool
  mint : Bool
deriving DecidableEq

/-- The verbatim argument list of the impl_device_copy! invocation at
lines 72 to 79 of the source. -/
def impl_device_copy_list : List Ty :=
  [.usize, .u8, .u16, .u32, .u64, .u128,
   .isize, .i8, .i16, .i32, .i64, .i128,
   .f32, .f64,
   .bool, .char,
   .nonZeroU8, .nonZeroU16, .nonZeroU32, .nonZeroU64, .nonZeroU128]

/-- The verbatim argument list of the impl_device_copy_glam! invocation
at lines 154 to 156 of the source (feature glam). -/
def impl_device_copy_glam_list : List Ty :=
  [.glamVec2, .glamVec3, .glamVec4, .glamIVec2, .glamIVec3, .glamIVec4]

/-- The verbatim argument list of the impl_device_copy_glam! invocation
at lines 159 to 164 of the source (feature mint): the mint
monomorphizations admitted. -/
def impl_device_copy_mint_list : List Ty :=
  [.mintVector2 .i16, .mintVector2 .i32, .mintVector2 .f32,
   .mintVector3 .u16, .mintVector3 .u32, .mintVector3 .i16,
   .mintVector3 .i32, .mintVector3 .f32,
   .mintVector4 .i16, .mintVector4 .i32, .mintVector4 .f32,
   .mintColumnMatrix2 .f32, .mintColumnMatrix3 .f32,
   .mintColumnMatrix4 .f32, .mintColumnMatrix3x4 .f32,
   .mintRowMatrix2 .f32, .mintRowMatrix3 .f32,
   .mintRowMatrix4 .f32, .mintRowMatrix3x4 .f32]

/-- The impl set of the source file, one constructor per impl:
a type satisfies DeviceCopy exactly when some impl covers it.
Line references are to crates/cust_core/src/lib.rs. -/
inductive DeviceCopy (cfg : Config) : Ty → Prop where
  /-- Lines 72 to 79: unconditional impls for the listed base types. -/
  | base {t : Ty} : t ∈ impl_device_copy_list → DeviceCopy cfg t
  /-- Line 80: impl for Option of T, T bounded by DeviceCopy. -/
  | option {t : Ty} : DeviceCopy cfg t → DeviceCopy cfg (.option t)
  /-- Line 81: impl for Result of L and R, both bounded by DeviceCopy. -/
  | result {l r : Ty} :
      DeviceCopy cfg l → DeviceCopy cfg r → DeviceCopy cfg (.result l r)
  /-- Line 82: impl for PhantomData of T, T bounded by DeviceCopy. -/
  | phantomData {t : Ty} : DeviceCopy cfg t → DeviceCopy cfg (.phantomData t)
  /-- Line 84: the lifetime constraint marker impl for PhantomData of a
  reference to unit. -/
  | phantomRefUnit : DeviceCopy cfg (.phantomData (.ref .unit))
  /-- Line 85: impl for Wrapping of T, T bounded by DeviceCopy. -/
  | wrapping {t : Ty} : DeviceCopy cfg t → DeviceCopy cfg (.wrapping t)
  /-- Line 86: impl for the array of T and any const length N. -/
  | array {t : Ty} (n : Nat) : DeviceCopy cfg t → DeviceCopy cfg (.array t n)
  /-- Line 87: impl for the unit type. -/
  | unit : DeviceCopy cfg .unit
  /-- Line 88: impl for pairs. -/
  | tuple2 {a b : Ty} :
      DeviceCopy cfg a → DeviceCopy cfg b → DeviceCopy cfg (.tuple2 a b)
  /-- Line 89: impl for triples. -/
  | tuple3 {a b c : Ty} :
      DeviceCopy cfg a → DeviceCopy cfg b → DeviceCopy cfg c →
      DeviceCopy cfg (.tuple3 a b c)
  /-- Lines 90 to 93: impl for 4-tuples. -/
  | tuple4 {a b c d : Ty} :
      DeviceCopy cfg a → DeviceCopy cfg b → DeviceCopy cfg c →
      DeviceCopy cfg d → DeviceCopy cfg (.tuple4 a b c d)
  /-- Lines 94 to 97: impl for 5-tuples. -/
  | tuple5 {a b c d e : Ty} :
      DeviceCopy cfg a → DeviceCopy cfg b → DeviceCopy cfg c →
      DeviceCopy cfg d → DeviceCopy cfg e → DeviceCopy cfg (.tuple5 a b c d e)
  /-- Lines 98 to 101: impl for 6-tuples. -/
  | tuple6 {a b c d e f : Ty} :
      DeviceCopy cfg a → DeviceCopy cfg b → DeviceCopy cfg c →
      DeviceCopy cfg d → DeviceCopy cfg e → DeviceCopy cfg f →
      DeviceCopy cfg (.tuple6 a b c d e f)
  /-- Lines 102 to 112: impl for 7-tuples. -/
  | tuple7 {a b c d e f g : Ty} :
      DeviceCopy cfg a → DeviceCopy cfg b → DeviceCopy cfg c →
      DeviceCopy cfg d → DeviceCopy cfg e → DeviceCopy cfg f →
      DeviceCopy cfg g → DeviceCopy cfg (.tuple7 a b c d e f g)
  /-- Lines 113 to 124: impl for 8-tuples. -/
  | tuple8 {a b c d e f g h : Ty} :
      DeviceCopy cfg a → DeviceCopy cfg b → DeviceCopy cfg c →
      DeviceCopy cfg d → DeviceCopy cfg e → DeviceCopy cfg f →
      DeviceCopy cfg g → DeviceCopy cfg h → DeviceCopy cfg (.tuple8 a b c d e f g h)
  /-- Lines 146 to 151 under feature vek: generic impls for the listed
  vek shapes, element bounded by DeviceCopy. One constructor per shape. -/
  | vekVec2 {t : Ty} : cfg.vek = true → DeviceCopy cfg t → DeviceCopy cfg (.vekVec2 t)
  | vekVec3 {t : Ty} : cfg.vek = true → DeviceCopy cfg t → DeviceCopy cfg (.vekVec3 t)
  | vekVec4 {t : Ty} : cfg.vek = true → DeviceCopy cfg t → DeviceCopy cfg (.vekVec4 t)
  | vekExtent2 {t : Ty} : cfg.vek = true → DeviceCopy cfg t → DeviceCopy cfg (.vekExtent2 t)
  | vekExtent3 {t : Ty} : cfg.vek = true → DeviceCopy cfg t → DeviceCopy cfg (.vekExtent3 t)
  | vekRgb {t : Ty} : cfg.vek = true → DeviceCopy cfg t → DeviceCopy cfg (.vekRgb t)
  | vekRgba {t : Ty} : cfg.vek = true → DeviceCopy cfg t → DeviceCopy cfg (.vekRgba t)
  | vekMat2 {t : Ty} : cfg.vek = true → DeviceCopy cfg t → DeviceCopy cfg (.vekMat2 t)
  | vekMat3 {t : Ty} : cfg.vek = true → DeviceCopy cfg t → DeviceCopy cfg (.vekMat3 t)
  | vekMat4 {t : Ty} : cfg.vek = true → DeviceCopy cfg t → DeviceCopy cfg (.vekMat4 t)
  | vekCubicBezier2 {t : Ty} : cfg.vek = true → DeviceCopy cfg t → DeviceCopy cfg (.vekCubicBezier2 t)
  | vekCubicBezier3 {t : Ty} : cfg.vek = true → DeviceCopy cfg t → DeviceCopy cfg (.vekCubicBezier3 t)
  | vekQuaternion {t : Ty} : cfg.vek = true → DeviceCopy cfg t → DeviceCopy cfg (.vekQuaternion t)
  /-- Lines 154 to 156 under feature glam: unconditional impls for the
  listed concrete glam types. -/
  | glam {t : Ty} : cfg.glam = true → t ∈ impl_device_copy_glam_list → DeviceCopy cfg t
  /-- Lines 159 to 164 under feature mint: unconditional impls for the
  listed concrete mint monomorphizations. -/
  | mint {t : Ty} : cfg.mint = true → t ∈ impl_device_copy_mint_list → DeviceCopy cfg t

/-- Discriminator for the one concrete type that the lifetime constraint
marker impl at line 84 covers: the shared reference to unit. -/
def isRefUnit : Ty → Bool
  | .ref .unit => true
  | _ => false

/-- Element types for which a mint 2-component or 4-component vector
monomorphization is listed at lines 160 and 162: i16, i32 and f32. -/
def mintSignedFloatElem : Ty → Bool
  | .i16 | .i32 | .f32 => true
  | _ => false

/-- Element types for which a mint 3-component vector monomorphization is
listed at line 161: u16, u32, i16, i32 and f32. -/
def mintVec3Elem : Ty → Bool
  | .u16 | .u32 | .i16 | .i32 | .f32 => true
  | _ => false

/-- Element types for which a mint matrix monomorphization is listed at
lines 163 and 164: f32 only. -/
def mintF32Elem : Ty → Bool
  | .f32 => true
  | _ => false

/-- The computable classifier: the closed-world reading of the impl set.
Each arm mirrors the impls covering that head shape; the equivalence with
the inductive transcription is is_transferable_iff below. -/
def is_transferable (cfg : Config) : Ty → Bool
  | .usize | .u8 | .u16 | .u32 | .u64 | .u128 => true
  | .isize | .i8 | .i16 | .i32 | .i64 | .i128 => true
  | .f32 | .f64 => true
  | .bool | .char => true
  | .nonZeroU8 | .nonZeroU16 | .nonZeroU32 | .nonZeroU64 | .nonZeroU128 => true
  | .nonZeroUsize | .nonZeroIsize => false
  | .nonZeroI8 | .nonZeroI16 | .nonZeroI32 | .nonZeroI64 | .nonZeroI128 => false
  | .option t => is_transferable cfg t
  | .result l r => is_transferable cfg l && is_transferable cfg r
  | .phantomData t => isRefUnit t || is_transferable cfg t
  | .wrapping t => is_transferable cfg t
  | .array t _ => is_transferable cfg t
  | .unit => true
  | .tuple2 a b => is_transferable cfg a && is_transferable cfg b
  | .tuple3 a b c =>
      is_transferable cfg a && is_transferable cfg b && is_transferable cfg c
  | .tuple4 a b c d =>
      is_transferable cfg a && is_transferable cfg b && is_transferable cfg c &&
      is_transferable cfg d
  | .tuple5 a b c d e =>
      is_transferable cfg a && is_transferable cfg b && is_transferable cfg c &&
      is_transferable cfg d && is_transferable cfg e
  | .tuple6 a b c d e f =>
      is_transferable cfg a && is_transferable cfg b && is_transferable cfg c &&
      is_transferable cfg d && is_transferable cfg e && is_transferable cfg f
  | .tuple7 a b c d e f g =>
      is_transferable cfg a && is_transferable cfg b && is_transferable cfg c &&
      is_transferable cfg d && is_transferable cfg e && is_transferable cfg f &&
      is_transferable cfg g
  | .tuple8 a b c d e f g h =>
      is_transferable cfg a && is_transferable cfg b && is_transferable cfg c &&
      is_transferable cfg d && is_transferable cfg e && is_transferable cfg f &&
      is_transferable cfg g && is_transferable cfg h
  | .ref _ => false
  | .rawPtr _ => false
  | .vec _ => false
  | .vekVec2 t | .vekVec3 t | .vekVec4 t => cfg.vek && is_transferable cfg t
  | .vekExtent2 t | .vekExtent3 t => cfg.vek && is_transferable cfg t
  | .vekRgb t | .vekRgba t => cfg.vek && is_transferable cfg t
  | .vekMat2 t | .vekMat3 t | .vekMat4 t => cfg.vek && is_transferable cfg t
  | .vekCubicBezier2 t | .vekCubicBezier3 t => cfg.vek && is_transferable cfg t
  | .vekQuaternion t => cfg.vek && is_transferable cfg t
  | .glamVec2 | .glamVec3 | .glamVec4 => cfg.glam
  | .glamIVec2 | .glamIVec3 | .glamIVec4 => cfg.glam
  | .mintVector2 t => cfg.mint && mintSignedFloatElem t
  | .mintVector3 t => cfg.mint && mintVec3Elem t
  | .mintVector4 t => cfg.mint && mintSignedFloatElem t
  | .mintColumnMatrix2 t | .mintColumnMatrix3 t => cfg.mint && mintF32Elem t
  | .mintColumnMatrix4 t | .mintColumnMatrix3x4 t => cfg.mint && mintF32Elem t
  | .mintRowMatrix2 t | .mintRowMatrix3 t => cfg.mint && mintF32Elem t
  | .mintRowMatrix4 t | .mintRowMatrix3x4 t => cfg.mint && mintF32Elem t

/-- The configuration with every feature gate enabled. -/
def allOn : Config := ⟨true, true, true⟩

/-- The standard Copy trait of Rust on the same universe: which types
have implicit copy-on-assignment semantics. Primitives, NonZero wrappers,
references and raw pointers are Copy; PhantomData is Copy for every
parameter; composites are Copy when their constituents are (std impls and
the derives of vek, glam and mint); Vec is never Copy. -/
def rustCopy : Ty → Bool
  | .usize | .u8 | .u16 | .u32 | .u64 | .u128 => true
  | .isize | .i8 | .i16 | .i32 | .i64 | .i128 => true
  | .f32 | .f64 => true
  | .bool | .char => true
  | .nonZeroU8 | .nonZeroU16 | .nonZeroU32 | .nonZeroU64 | .nonZeroU128 => true
  | .nonZeroUsize | .nonZeroIsize => true
  | .nonZeroI8 | .nonZeroI16 | .nonZeroI32 | .nonZeroI64 | .nonZeroI128 => true
  | .option t => rustCopy t
  | .result l r => rustCopy l && rustCopy r
  | .phantomData _ => true
  | .wrapping t => rustCopy t
  | .array t _ => rustCopy t
  | .unit => true
  | .tuple2 a b => rustCopy a && rustCopy b
  | .tuple3 a b c => rustCopy a && rustCopy b && rustCopy c
  | .tuple4 a b c d => rustCopy a && rustCopy b && rustCopy c && rustCopy d
  | .tuple5 a b c d e =>
      rustCopy a && rustCopy b && rustCopy c && rustCopy d && rustCopy e
  | .tuple6 a b c d e f =>
      rustCopy a && rustCopy b && rustCopy c && rustCopy d && rustCopy e &&
      rustCopy f
  | .tuple7 a b c d e f g =>
      rustCopy a && rustCopy b && rustCopy c && rustCopy d && rustCopy e &&
      rustCopy f && rustCopy g
  | .tuple8 a b c d e f g h =>
      rustCopy a && rustCopy b && rustCopy c && rustCopy d && rustCopy e &&
      rustCopy f && rustCopy g && rustCopy h
  | .ref _ => true
  | .rawPtr _ => true
  | .vec _ => false
  | .vekVec2 t | .vekVec3 t | .vekVec4 t => rustCopy t
  | .vekExtent2 t | .vekExtent3 t => rustCopy t
  | .vekRgb t | .vekRgba t => rustCopy t
  | .vekMat2 t | .vekMat3 t | .vekMat4 t => rustCopy t
  | .vekCubicBezier2 t | .vekCubicBezier3 t => rustCopy t
  | .vekQuaternion t => rustCopy t
  | .glamVec2 | .glamVec3 | .glamVec4 => true
  | .glamIVec2 | .glamIVec3 | .glamIVec4 => true
  | .mintVector2 t | .mintVector3 t | .mintVector4 t => rustCopy t
  | .mintColumnMatrix2 t | .mintColumnMatrix3 t => rustCopy t
  | .mintColumnMatrix4 t | .mintColumnMatrix3x4 t => rustCopy t
  | .mintRowMatrix2 t | .mintRowMatrix3 t => rustCopy t
  | .mintRowMatrix4 t | .mintRowMatrix3x4 t => rustCopy t

/-- The structural nesting depth of a candidate type. -/
def depth : Ty → Nat
  | .usize | .u8 | .u16 | .u32 | .u64 | .u128 => 1
  | .isize | .i8 | .i16 | .i32 | .i64 | .i128 => 1
  | .f32 | .f64 => 1
  | .bool | .char => 1
  | .nonZeroU8 | .nonZeroU16 | .nonZeroU32 | .nonZeroU64 | .nonZeroU128 => 1
  | .nonZeroUsize | .nonZeroIsize => 1
  | .nonZeroI8 | .nonZeroI16 | .nonZeroI32 | .nonZeroI64 | .nonZeroI128 => 1
  | .unit => 1
  | .glamVec2 | .glamVec3 | .glamVec4 => 1
  | .glamIVec2 | .glamIVec3 | .glamIVec4 => 1
  | .option t => depth t + 1
  | .result l r => max (depth l) (depth r) + 1
  | .phantomData t => depth t + 1
  | .wrapping t => depth t + 1
  | .array t _ => depth t + 1
  | .tuple2 a b => max (depth a) (depth b) + 1
  | .tuple3 a b c => max (max (depth a) (depth b)) (depth c) + 1
  | .tuple4 a b c d => max (max (max (depth a) (depth b)) (depth c)) (depth d) + 1
  | .tuple5 a b c d e =>
      max (max (max (max (depth a) (depth b)) (depth c)) (depth d)) (depth e) + 1
  | .tuple6 a b c d e f =>
      max (max (max (max (max (depth a) (depth b)) (depth c)) (depth d))
        (depth e)) (depth f) + 1
  | .tuple7 a b c d e f g =>
      max (max (max (max (max (max (depth a) (depth b)) (depth c)) (depth d))
        (depth e)) (depth f)) (depth g) + 1
  | .tuple8 a b c d e f g h =>
      max (max (max (max (max (max (max (depth a) (depth b)) (depth c))
        (depth d)) (depth e)) (depth f)) (depth g)) (depth h) + 1
  | .ref t => depth t + 1
  | .rawPtr t => depth t + 1
  | .vec t => depth t + 1
  | .vekVec2 t | .vekVec3 t | .vekVec4 t => depth t + 1
  | .vekExtent2 t | .vekExtent3 t => depth t + 1
  | .vekRgb t | .vekRgba t => depth t + 1
  | .vekMat2 t | .vekMat3 t | .vekMat4 t => depth t + 1
  | .vekCubicBezier2 t | .vekCubicBezier3 t => depth t + 1
  | .vekQuaternion t => depth t + 1
  | .mintVector2 t | .mintVector3 t | .mintVector4 t => depth t + 1
  | .mintColumnMatrix2 t | .mintColumnMatrix3 t => depth t + 1
  | .mintColumnMatrix4 t | .mintColumnMatrix3x4 t => depth t + 1
  | .mintRowMatrix2 t | .mintRowMatrix3 t => depth t + 1
  | .mintRowMatrix4 t | .mintRowMatrix3x4 t => depth t + 1

/-- A fuel-bounded evaluator for the classifier: each unit of fuel pays
for one level of recursion, and none returns when the fuel runs out
before the evaluation completes. -/
def is_transferable_fuel (cfg : Config) : Nat → Ty → Option Bool
  | 0, _ => none
  | fuel + 1, t =>
    match t with
    | .option s => is_transferable_fuel cfg fuel s
    | .result l r => do
        let xl ← is_transferable_fuel cfg fuel l
        let xr ← is_transferable_fuel cfg fuel r
        pure (xl && xr)
    | .phantomData s =>
        if isRefUnit s then pure true else is_transferable_fuel cfg fuel s
    | .wrapping s => is_transferable_fuel cfg fuel s
    | .array s _ => is_transferable_fuel cfg fuel s
    | .tuple2 a b => do
        let xa ← is_transferable_fuel cfg fuel a
        let xb ← is_transferable_fuel cfg fuel b
        pure (xa && xb)
    | .tuple3 a b c => do
        let xa ← is_transferable_fuel cfg fuel a
        let xb ← is_transferable_fuel cfg fuel b
        let xc ← is_transferable_fuel cfg fuel c
        pure (xa && xb && xc)
    | .tuple4 a b c d => do
        let xa ← is_transferable_fuel cfg fuel a
        let xb ← is_transferable_fuel cfg fuel b
        let xc ← is_transferable_fuel cfg fuel c
        let xd ← is_transferable_fuel cfg fuel d
        pure (xa && xb && xc && xd)
    | .tuple5 a b c d e => do
        let xa ← is_transferable_fuel cfg fuel a
        let xb ← is_transferable_fuel cfg fuel b
        let xc ← is_transferable_fuel cfg fuel c
        let xd ← is_transferable_fuel cfg fuel d
        let xe ← is_transferable_fuel cfg fuel e
        pure (xa && xb && xc && xd && xe)
    | .tuple6 a b c d e f => do
        let xa ← is_transferable_fuel cfg fuel a
        let xb ← is_transferable_fuel cfg fuel b
        let xc ← is_transferable_fuel cfg fuel c
        let xd ← is_transferable_fuel cfg fuel d
        let xe ← is_transferable_fuel cfg fuel e
        let xf ← is_transferable_fuel cfg fuel f
        pure (xa && xb && xc && xd && xe && xf)
    | .tuple7 a b c d e f g => do
        let xa ← is_transferable_fuel cfg fuel a
        let xb ← is_transferable_fuel cfg fuel b
        let xc ← is_transferable_fuel cfg fuel c
        let xd ← is_transferable_fuel cfg fuel d
        let xe ← is_transferable_fuel cfg fuel e
        let xf ← is_transferable_fuel cfg fuel f
        let xg ← is_transferable_fuel cfg fuel g
        pure (xa && xb && xc && xd && xe && xf && xg)
    | .tuple8 a b c d e f g h => do
        let xa ← is_transferable_fuel cfg fuel a
        let xb ← is_transferable_fuel cfg fuel b
        let xc ← is_transferable_fuel cfg fuel c
        let xd ← is_transferable_fuel cfg fuel d
        let xe ← is_transferable_fuel cfg fuel e
        let xf ← is_transferable_fuel cfg fuel f
        let xg ← is_transferable_fuel cfg fuel g
        let xh ← is_transferable_fuel cfg fuel h
        pure (xa && xb && xc && xd && xe && xf && xg && xh)
    | .vekVec2 s | .vekVec3 s | .vekVec4 s => do
        pure (cfg.vek && (← is_transferable_fuel cfg fuel s))
    | .vekExtent2 s | .vekExtent3 s => do
        pure (cfg.vek && (← is_transferable_fuel cfg fuel s))
    | .vekRgb s | .vekRgba s => do
        pure (cfg.vek && (← is_transferable_fuel cfg fuel s))
    | .vekMat2 s | .vekMat3 s | .vekMat4 s => do
        pure (cfg.vek && (← is_transferable_fuel cfg fuel s))
    | .vekCubicBezier2 s | .vekCubicBezier3 s => do
        pure (cfg.vek && (← is_transferable_fuel cfg fuel s))
    | .vekQuaternion s => do
        pure (cfg.vek && (← is_transferable_fuel cfg fuel s))
    | .usize | .u8 | .u16 | .u32 | .u64 | .u128 => pure true
    | .isize | .i8 | .i16 | .i32 | .i64 | .i128 => pure true
    | .f32 | .f64 => pure true
    | .bool | .char => pure true
    | .nonZeroU8 | .nonZeroU16 | .nonZeroU32 => pure true
    | .nonZeroU64 | .nonZeroU128 => pure true
    | .nonZeroUsize | .nonZeroIsize => pure false
    | .nonZeroI8 | .nonZeroI16 | .nonZeroI32 => pure false
    | .nonZeroI64 | .nonZeroI128 => pure false
    | .unit => pure true
    | .ref _ | .rawPtr _ | .vec _ => pure false
    | .glamVec2 | .glamVec3 | .glamVec4 => pure cfg.glam
    | .glamIVec2 | .glamIVec3 | .glamIVec4 => pure cfg.glam
    | .mintVector2 s => pure (cfg.mint && mintSignedFloatElem s)
    | .mintVector3 s => pure (cfg.mint && mintVec3Elem s)
    | .mintVector4 s => pure (cfg.mint && mintSignedFloatElem s)
    | .mintColumnMatrix2 s | .mintColumnMatrix3 s =>
        pure (cfg.mint && mintF32Elem s)
    | .mintColumnMatrix4 s | .mintColumnMatrix3x4 s =>
        pure (cfg.mint && mintF32Elem s)
    | .mintRowMatrix2 s | .mintRowMatrix3 s => pure (cfg.mint && mintF32Elem s)
    | .mintRowMatrix4 s | .mintRowMatrix3x4 s => pure (cfg.mint && mintF32Elem s)

example : is_transferable allOn (.tuple2 .u32 (.option .i32)) = true := by decide
example : is_transferable allOn (.option (.vec .u8)) = false := by decide
example : is_transferable allOn (.phantomData (.vec .u8)) = false := by decide
example : is_transferable allOn (.phantomData (.ref .unit)) = true := by decide
example : is_transferable allOn .nonZeroI32 = false := by decide
example : is_transferable ⟨false, true, true⟩ (.vekVec2 .f32) = false := by decide
example : is_transferable allOn (.mintVector2 .u16) = false := by decide
example : is_transferable allOn (.mintVector3 .u16) = true := by decide

theorem isRefUnit_iff {t : Ty} : isRefUnit t = true ↔ t = .ref .unit := by
  cases t <;> simp [isRefUnit]
  case ref s => cases s <;> simp [isRefUnit]

theorem mintSignedFloatElem_iff {t : Ty} :
    mintSignedFloatElem t = true ↔ t = .i16 ∨ t = .i32 ∨ t = .f32 := by
  cases t <;> simp [mintSignedFloatElem]

theorem mintVec3Elem_iff {t : Ty} :
    mintVec3Elem t = true ↔
      t = .u16 ∨ t = .u32 ∨ t = .i16 ∨ t = .i32 ∨ t = .f32 := by
  cases t <;> simp [mintVec3Elem]

theorem mintF32Elem_iff {t : Ty} : mintF32Elem t = true ↔ t = .f32 := by
  cases t <;> simp [mintF32Elem]

/-- Soundness of the classifier against the impl set: every type covered
by some impl is accepted. -/
theorem is_transferable_of_deviceCopy {cfg : Config} {t : Ty}
    (h : DeviceCopy cfg t) : is_transferable cfg t = true := by
  induction h
  case base hmem => fin_cases hmem <;> rfl
  case glam hg hmem => fin_cases hmem <;> simp [is_transferable, hg]
  case mint hm hmem =>
    fin_cases hmem <;>
      simp [is_transferable, hm, mintSignedFloatElem, mintVec3Elem, mintF32Elem]
  all_goals simp_all [is_transferable, isRefUnit]

/-- Completeness of the classifier against the impl set: every type it
accepts is covered by some impl. -/
theorem deviceCopy_of_is_transferable {cfg : Config} :
    ∀ {t : Ty}, is_transferable cfg t = true → DeviceCopy cfg t := by
  intro t
  induction t with
  | usize => exact fun _ => .base (by simp [impl_device_copy_list])
  | u8 => exact fun _ => .base (by simp [impl_device_copy_list])
  | u16 => exact fun _ => .base (by simp [impl_device_copy_list])
  | u32 => exact fun _ => .base (by simp [impl_device_copy_list])
  | u64 => exact fun _ => .base (by simp [impl_device_copy_list])
  | u128 => exact fun _ => .base (by simp [impl_device_copy_list])
  | isize => exact fun _ => .base (by simp [impl_device_copy_list])
  | i8 => exact fun _ => .base (by simp [impl_device_copy_list])
  | i16 => exact fun _ => .base (by simp [impl_device_copy_list])
  | i32 => exact fun _ => .base (by simp [impl_device_copy_list])
  | i64 => exact fun _ => .base (by simp [impl_device_copy_list])
  | i128 => exact fun _ => .base (by simp [impl_device_copy_list])
  | f32 => exact fun _ => .base (by simp [impl_device_copy_list])
  | f64 => exact fun _ => .base (by simp [impl_device_copy_list])
  | bool => exact fun _ => .base (by simp [impl_device_copy_list])
  | char => exact fun _ => .base (by simp [impl_device_copy_list])
  | nonZeroU8 => exact fun _ => .base (by simp [impl_device_copy_list])
  | nonZeroU16 => exact fun _ => .base (by simp [impl_device_copy_list])
  | nonZeroU32 => exact fun _ => .base (by simp [impl_device_copy_list])
  | nonZeroU64 => exact fun _ => .base (by simp [impl_device_copy_list])
  | nonZeroU128 => exact fun _ => .base (by simp [impl_device_copy_list])
  | nonZeroUsize => intro h; simp [is_transferable] at h
  | nonZeroIsize => intro h; simp [is_transferable] at h
  | nonZeroI8 => intro h; simp [is_transferable] at h
  | nonZeroI16 => intro h; simp [is_transferable] at h
  | nonZeroI32 => intro h; simp [is_transferable] at h
  | nonZeroI64 => intro h; simp [is_transferable] at h
  | nonZeroI128 => intro h; simp [is_transferable] at h
  | option t ih =>
    intro h; simp only [is_transferable] at h; exact .option (ih h)
  | result l r ihl ihr =>
    intro h; simp only [is_transferable, Bool.and_eq_true] at h
    exact .result (ihl h.1) (ihr h.2)
  | phantomData t ih =>
    intro h
    simp only [is_transferable, Bool.or_eq_true] at h
    rcases h with h | h
    · rw [isRefUnit_iff.mp h]; exact .phantomRefUnit
    · exact .phantomData (ih h)
  | wrapping t ih =>
    intro h; simp only [is_transferable] at h; exact .wrapping (ih h)
  | array t n ih =>
    intro h; simp only [is_transferable] at h; exact .array n (ih h)
  | unit => exact fun _ => .unit
  | tuple2 a b iha ihb =>
    intro h; simp only [is_transferable, Bool.and_eq_true] at h
    exact .tuple2 (iha h.1) (ihb h.2)
  | tuple3 a b c iha ihb ihc =>
    intro h; simp only [is_transferable, Bool.and_eq_true] at h
    exact .tuple3 (iha h.1.1) (ihb h.1.2) (ihc h.2)
  | tuple4 a b c d iha ihb ihc ihd =>
    intro h; simp only [is_transferable, Bool.and_eq_true] at h
    exact .tuple4 (iha h.1.1.1) (ihb h.1.1.2) (ihc h.1.2) (ihd h.2)
  | tuple5 a b c d e iha ihb ihc ihd ihe =>
    intro h; simp only [is_transferable, Bool.and_eq_true] at h
    exact .tuple5 (iha h.1.1.1.1) (ihb h.1.1.1.2) (ihc h.1.1.2) (ihd h.1.2)
      (ihe h.2)
  | tuple6 a b c d e f iha ihb ihc ihd ihe ihf =>
    intro h; simp only [is_transferable, Bool.and_eq_true] at h
    exact .tuple6 (iha h.1.1.1.1.1) (ihb h.1.1.1.1.2) (ihc h.1.1.1.2)
      (ihd h.1.1.2) (ihe h.1.2) (ihf h.2)
  | tuple7 a b c d e f g iha ihb ihc ihd ihe ihf ihg =>
    intro h; simp only [is_transferable, Bool.and_eq_true] at h
    exact .tuple7 (iha h.1.1.1.1.1.1) (ihb h.1.1.1.1.1.2) (ihc h.1.1.1.1.2)
      (ihd h.1.1.1.2) (ihe h.1.1.2) (ihf h.1.2) (ihg h.2)
  | tuple8 a b c d e f g h8 iha ihb ihc ihd ihe ihf ihg ihh =>
    intro h; simp only [is_transferable, Bool.and_eq_true] at h
    exact .tuple8 (iha h.1.1.1.1.1.1.1) (ihb h.1.1.1.1.1.1.2)
      (ihc h.1.1.1.1.1.2) (ihd h.1.1.1.1.2) (ihe h.1.1.1.2) (ihf h.1.1.2)
      (ihg h.1.2) (ihh h.2)
  | ref t ih => intro h; simp [is_transferable] at h
  | rawPtr t ih => intro h; simp [is_transferable] at h
  | vec t ih => intro h; simp [is_transferable] at h
  | vekVec2 t ih =>
    intro h; simp only [is_transferable, Bool.and_eq_true] at h
    exact .vekVec2 h.1 (ih h.2)
  | vekVec3 t ih =>
    intro h; simp only [is_transferable, Bool.and_eq_true] at h
    exact .vekVec3 h.1 (ih h.2)
  | vekVec4 t ih =>
    intro h; simp only [is_transferable, Bool.and_eq_true] at h
    exact .vekVec4 h.1 (ih h.2)
  | vekExtent2 t ih =>
    intro h; simp only [is_transferable, Bool.and_eq_true] at h
    exact .vekExtent2 h.1 (ih h.2)
  | vekExtent3 t ih =>
    intro h; simp only [is_transferable, Bool.and_eq_true] at h
    exact .vekExtent3 h.1 (ih h.2)
  | vekRgb t ih =>
    intro h; simp only [is_transferable, Bool.and_eq_true] at h
    exact .vekRgb h.1 (ih h.2)
  | vekRgba t ih =>
    intro h; simp only [is_transferable, Bool.and_eq_true] at h
    exact .vekRgba h.1 (ih h.2)
  | vekMat2 t ih =>
    intro h; simp only [is_transferable, Bool.and_eq_true] at h
    exact .vekMat2 h.1 (ih h.2)
  | vekMat3 t ih =>
    intro h; simp only [is_transferable, Bool.and_eq_true] at h
    exact .vekMat3 h.1 (ih h.2)
  | vekMat4 t ih =>
    intro h; simp only [is_transferable, Bool.and_eq_true] at h
    exact .vekMat4 h.1 (ih h.2)
  | vekCubicBezier2 t ih =>
    intro h; simp only [is_transferable, Bool.and_eq_true] at h
    exact .vekCubicBezier2 h.1 (ih h.2)
  | vekCubicBezier3 t ih =>
    intro h; simp only [is_transferable, Bool.and_eq_true] at h
    exact .vekCubicBezier3 h.1 (ih h.2)
  | vekQuaternion t ih =>
    intro h; simp only [is_transferable, Bool.and_eq_true] at h
    exact .vekQuaternion h.1 (ih h.2)
  | glamVec2 =>
    intro h; simp only [is_transferable] at h
    exact .glam h (by simp [impl_device_copy_glam_list])
  | glamVec3 =>
    intro h; simp only [is_transferable] at h
    exact .glam h (by simp [impl_device_copy_glam_list])
  | glamVec4 =>
    intro h; simp only [is_transferable] at h
    exact .glam h (by simp [impl_device_copy_glam_list])
  | glamIVec2 =>
    intro h; simp only [is_transferable] at h
    exact .glam h (by simp [impl_device_copy_glam_list])
  | glamIVec3 =>
    intro h; simp only [is_transferable] at h
    exact .glam h (by simp [impl_device_copy_glam_list])
  | glamIVec4 =>
    intro h; simp only [is_transferable] at h
    exact .glam h (by simp [impl_device_copy_glam_list])
  | mintVector2 t ih =>
    intro h; simp only [is_transferable, Bool.and_eq_true] at h
    rcases mintSignedFloatElem_iff.mp h.2 with rfl | rfl | rfl <;>
      exact .mint h.1 (by simp [impl_device_copy_mint_list])
  | mintVector3 t ih =>
    intro h; simp only [is_transferable, Bool.and_eq_true] at h
    rcases mintVec3Elem_iff.mp h.2 with rfl | rfl | rfl | rfl | rfl <;>
      exact .mint h.1 (by simp [impl_device_copy_mint_list])
  | mintVector4 t ih =>
    intro h; simp only [is_transferable, Bool.and_eq_true] at h
    rcases mintSignedFloatElem_iff.mp h.2 with rfl | rfl | rfl <;>
      exact .mint h.1 (by simp [impl_device_copy_mint_list])
  | mintColumnMatrix2 t ih =>
    intro h; simp only [is_transferable, Bool.and_eq_true] at h
    rw [mintF32Elem_iff.mp h.2]
    exact .mint h.1 (by simp [impl_device_copy_mint_list])
  | mintColumnMatrix3 t ih =>
    intro h; simp only [is_transferable, Bool.and_eq_true] at h
    rw [mintF32Elem_iff.mp h.2]
    exact .mint h.1 (by simp [impl_device_copy_mint_list])
  | mintColumnMatrix4 t ih =>
    intro h; simp only [is_transferable, Bool.and_eq_true] at h
    rw [mintF32Elem_iff.mp h.2]
    exact .mint h.1 (by simp [impl_device_copy_mint_list])
  | mintColumnMatrix3x4 t ih =>
    intro h; simp only [is_transferable, Bool.and_eq_true] at h
    rw [mintF32Elem_iff.mp h.2]
    exact .mint h.1 (by simp [impl_device_copy_mint_list])
  | mintRowMatrix2 t ih =>
    intro h; simp only [is_transferable, Bool.and_eq_true] at h
    rw [mintF32Elem_iff.mp h.2]
    exact .mint h.1 (by simp [impl_device_copy_mint_list])
  | mintRowMatrix3 t ih =>
    intro h; simp only [is_transferable, Bool.and_eq_true] at h
    rw [mintF32Elem_iff.mp h.2]
    exact .mint h.1 (by simp [impl_device_copy_mint_list])
  | mintRowMatrix4 t ih =>
    intro h; simp only [is_transferable, Bool.and_eq_true] at h
    rw [mintF32Elem_iff.mp h.2]
    exact .mint h.1 (by simp [impl_device_copy_mint_list])
  | mintRowMatrix3x4 t ih =>
    intro h; simp only [is_transferable, Bool.and_eq_true] at h
    rw [mintF32Elem_iff.mp h.2]
    exact .mint h.1 (by simp [impl_device_copy_mint_list])

/-- The computable classifier decides exactly the impl set transcribed as
DeviceCopy. -/
theorem is_transferable_iff {cfg : Config} {t : Ty} :
    is_transferable cfg t = true ↔ DeviceCopy cfg t :=
  ⟨deviceCopy_of_is_transferable, is_transferable_of_deviceCopy⟩

/-- Every member of the impl set is Copy: the supertrait bound at line 62
of the source (pub unsafe trait DeviceCopy: Copy) holds of every type any
impl covers. -/
theorem rustCopy_of_deviceCopy {cfg : Config} {t : Ty}
    (h : DeviceCopy cfg t) : rustCopy t = true := by
  induction h
  case base hmem => fin_cases hmem <;> rfl
  case glam hg hmem => fin_cases hmem <;> rfl
  case mint hm hmem => fin_cases hmem <;> rfl
  all_goals simp_all [rustCopy]

/-- Fuel adequacy: fuel equal to the nesting depth of the candidate type
suffices for the bounded evaluator to complete and agree with the
classifier. -/
theorem is_transferable_fuel_complete {cfg : Config} :
    ∀ (fuel : Nat) (t : Ty), depth t ≤ fuel →
      is_transferable_fuel cfg fuel t = some (is_transferable cfg t) := by
  intro fuel
  induction fuel with
  | zero => intro t h; cases t <;> simp only [depth] at h <;> omega
  | succ n ih =>
    intro t h
    cases t <;> try rfl
    case option s =>
      simp only [depth] at h
      simp [is_transferable_fuel, is_transferable, ih s (by omega)]
    case result l r =>
      simp only [depth] at h
      simp [is_transferable_fuel, is_transferable, ih l (by omega),
        ih r (by omega)]
    case phantomData s =>
      simp only [depth] at h
      cases hs : isRefUnit s <;>
        simp [is_transferable_fuel, is_transferable, hs, ih s (by omega)]
    case wrapping s =>
      simp only [depth] at h
      simp [is_transferable_fuel, is_transferable, ih s (by omega)]
    case array s k =>
      simp only [depth] at h
      simp [is_transferable_fuel, is_transferable, ih s (by omega)]
    case tuple2 a b =>
      simp only [depth] at h
      simp [is_transferable_fuel, is_transferable, ih a (by omega),
        ih b (by omega)]
    case tuple3 a b c =>
      simp only [depth] at h
      simp [is_transferable_fuel, is_transferable, ih a (by omega),
        ih b (by omega), ih c (by omega)]
    case tuple4 a b c d =>
      simp only [depth] at h
      simp [is_transferable_fuel, is_transferable, ih a (by omega),
        ih b (by omega), ih c (by omega), ih d (by omega)]
    case tuple5 a b c d e =>
      simp only [depth] at h
      simp [is_transferable_fuel, is_transferable, ih a (by omega),
        ih b (by omega), ih c (by omega), ih d (by omega), ih e (by omega)]
    case tuple6 a b c d e f =>
      simp only [depth] at h
      simp [is_transferable_fuel, is_transferable, ih a (by omega),
        ih b (by omega), ih c (by omega), ih d (by omega), ih e (by omega),
        ih f (by omega)]
    case tuple7 a b c d e f g =>
      simp only [depth] at h
      simp [is_transferable_fuel, is_transferable, ih a (by omega),
        ih b (by omega), ih c (by omega), ih d (by omega), ih e (by omega),
        ih f (by omega), ih g (by omega)]
    case tuple8 a b c d e f g h8 =>
      simp only [depth] at h
      simp [is_transferable_fuel, is_transferable, ih a (by omega),
        ih b (by omega), ih c (by omega), ih d (by omega), ih e (by omega),
        ih f (by omega), ih g (by omega), ih h8 (by omega)]
    case vekVec2 s =>
      simp only [depth] at h
      simp [is_transferable_fuel, is_transferable, ih s (by omega)]
    case vekVec3 s =>
      simp only [depth] at h
      simp [is_transferable_fuel, is_transferable, ih s (by omega)]
    case vekVec4 s =>
      simp only [depth] at h
      simp [is_transferable_fuel, is_transferable, ih s (by omega)]
    case vekExtent2 s =>
      simp only [depth] at h
      simp [is_transferable_fuel, is_transferable, ih s (by omega)]
    case vekExtent3 s =>
      simp only [depth] at h
      simp [is_transferable_fuel, is_transferable, ih s (by omega)]
    case vekRgb s =>
      simp only [depth] at h
      simp [is_transferable_fuel, is_transferable, ih s (by omega)]
    case vekRgba s =>
      simp only [depth] at h
      simp [is_transferable_fuel, is_transferable, ih s (by omega)]
    case vekMat2 s =>
      simp only [depth] at h
      simp [is_transferable_fuel, is_transferable, ih s (by omega)]
    case vekMat3 s =>
      simp only [depth] at h
      simp [is_transferable_fuel, is_transferable, ih s (by omega)]
    case vekMat4 s =>
      simp only [depth] at h
      simp [is_transferable_fuel, is_transferable, ih s (by omega)]
    case vekCubicBezier2 s =>
      simp only [depth] at h
      simp [is_transferable_fuel, is_transferable, ih s (by omega)]
    case vekCubicBezier3 s =>
      simp only [depth] at h
      simp [is_transferable_fuel, is_transferable, ih s (by omega)]
    case vekQuaternion s =>
      simp only [depth] at h
      simp [is_transferable_fuel, is_transferable, ih s (by omega)]

/-- Claim C1, counterexample: the claim that PhantomData of T is
transferable for every parameter T fails at the concrete parameter
Vec of u8, because the impl at line 82 bounds the parameter by
DeviceCopy and the only exception (line 84) is the reference tag. -/
theorem phantomData_vec_counterexample :
    is_transferable allOn (.phantomData (.vec .u8)) = false := by decide

/-- Claim C1, amended: the zero-sized marker PhantomData of T satisfies
is_transferable exactly when T itself is transferable or T is the
reference-shaped tag type (a shared reference to unit); the tag marker is
transferable although the bare reference type is not. -/
theorem phantomData_transferable_iff :
    ∀ (cfg : Config) (t : Ty),
      (is_transferable cfg (.phantomData t) = true ↔
        is_transferable cfg t = true ∨ t = .ref .unit) ∧
      is_transferable cfg (.phantomData (.ref .unit)) = true ∧
      is_transferable cfg (.ref .unit) = false := by
  intro cfg t
  refine ⟨?_, by simp [is_transferable, isRefUnit], rfl⟩
  simp only [is_transferable, Bool.or_eq_true, isRefUnit_iff]
  tauto

/-- Claim C2: the claim says membership in the Transferable set never
forces implicit copy-on-assignment semantics, but the supertrait bound at
line 62 of the source (pub unsafe trait DeviceCopy: Copy) is exactly such
a rule: every member of the Transferable set implements Copy. This
theorem verifies the implication the claim denies. -/
theorem transferable_implies_copy :
    ∀ (cfg : Config) (t : Ty),
      is_transferable cfg t = true → rustCopy t = true :=
  fun _ _ h => rustCopy_of_deviceCopy (deviceCopy_of_is_transferable h)

/-- Witness for transferable_implies_copy at the member u8. -/
theorem transferable_implies_copy_witness :
    is_transferable allOn .u8 = true ∧ rustCopy Ty.u8 = true :=
  ⟨by decide, transferable_implies_copy allOn Ty.u8 (by decide)⟩

/-- Claim C3, counterexample: the claim that the non-zero wrappers of all
standard widths, signed and unsigned, are in the base set fails at the
signed wrapper NonZeroI32, which the list at lines 72 to 79 does not
contain. -/
theorem nonZeroSigned_counterexample :
    is_transferable allOn .nonZeroI32 = false := by decide

/-- Claim C3, amended: every primitive actually in the curated base list
of lines 72 to 79 satisfies is_transferable (the integer primitives of
all widths, both floating point types, boolean, character, and the
unsigned non-zero wrappers), while the signed non-zero wrappers are not
members. -/
theorem base_primitives_transferable :
    ∀ (cfg : Config),
      (∀ t ∈ impl_device_copy_list, is_transferable cfg t = true) ∧
      is_transferable cfg .nonZeroI8 = false ∧
      is_transferable cfg .nonZeroI16 = false ∧
      is_transferable cfg .nonZeroI32 = false ∧
      is_transferable cfg .nonZeroI64 = false ∧
      is_transferable cfg .nonZeroI128 = false := by
  intro cfg
  refine ⟨?_, rfl, rfl, rfl, rfl, rfl⟩
  intro t ht
  fin_cases ht <;> rfl

/-- Witness for base_primitives_transferable at the member u8. -/
theorem base_primitives_transferable_witness :
    is_transferable allOn .u8 = true :=
  (base_primitives_transferable allOn).1 .u8 (by simp [impl_device_copy_list])

/-- Claim C4: each supported composite shape (fixed-size array, tuples of
arity 2 through 8, the optional wrapper, the two-case Result wrapper and
the Wrapping wrapper) is transferable exactly when every constituent is,
and a composite with a non-transferable constituent, such as an optional
wrapper around a growable Vec, is not transferable. -/
theorem composite_iff_constituents :
    ∀ (cfg : Config) (n : Nat) (t1 t2 t3 t4 t5 t6 t7 t8 : Ty),
      (is_transferable cfg (.array t1 n) = true ↔
        is_transferable cfg t1 = true) ∧
      (is_transferable cfg (.option t1) = true ↔
        is_transferable cfg t1 = true) ∧
      (is_transferable cfg (.result t1 t2) = true ↔
        is_transferable cfg t1 = true ∧ is_transferable cfg t2 = true) ∧
      (is_transferable cfg (.wrapping t1) = true ↔
        is_transferable cfg t1 = true) ∧
      (is_transferable cfg (.tuple2 t1 t2) = true ↔
        is_transferable cfg t1 = true ∧ is_transferable cfg t2 = true) ∧
      (is_transferable cfg (.tuple3 t1 t2 t3) = true ↔
        is_transferable cfg t1 = true ∧ is_transferable cfg t2 = true ∧
        is_transferable cfg t3 = true) ∧
      (is_transferable cfg (.tuple4 t1 t2 t3 t4) = true ↔
        is_transferable cfg t1 = true ∧ is_transferable cfg t2 = true ∧
        is_transferable cfg t3 = true ∧ is_transferable cfg t4 = true) ∧
      (is_transferable cfg (.tuple5 t1 t2 t3 t4 t5) = true ↔
        is_transferable cfg t1 = true ∧ is_transferable cfg t2 = true ∧
        is_transferable cfg t3 = true ∧ is_transferable cfg t4 = true ∧
        is_transferable cfg t5 = true) ∧
      (is_transferable cfg (.tuple6 t1 t2 t3 t4 t5 t6) = true ↔
        is_transferable cfg t1 = true ∧ is_transferable cfg t2 = true ∧
        is_transferable cfg t3 = true ∧ is_transferable cfg t4 = true ∧
        is_transferable cfg t5 = true ∧ is_transferable cfg t6 = true) ∧
      (is_transferable cfg (.tuple7 t1 t2 t3 t4 t5 t6 t7) = true ↔
        is_transferable cfg t1 = true ∧ is_transferable cfg t2 = true ∧
        is_transferable cfg t3 = true ∧ is_transferable cfg t4 = true ∧
        is_transferable cfg t5 = true ∧ is_transferable cfg t6 = true ∧
        is_transferable cfg t7 = true) ∧
      (is_transferable cfg (.tuple8 t1 t2 t3 t4 t5 t6 t7 t8) = true ↔
        is_transferable cfg t1 = true ∧ is_transferable cfg t2 = true ∧
        is_transferable cfg t3 = true ∧ is_transferable cfg t4 = true ∧
        is_transferable cfg t5 = true ∧ is_transferable cfg t6 = true ∧
        is_transferable cfg t7 = true ∧ is_transferable cfg t8 = true) ∧
      is_transferable cfg (.option (.vec .u8)) = false := by
  intro cfg n t1 t2 t3 t4 t5 t6 t7 t8
  refine ⟨?_, ?_, ?_, ?_, ?_, ?_, ?_, ?_, ?_, ?_, ?_, rfl⟩ <;>
    simp [is_transferable, and_assoc]

/-- Claim C5: for every arity 2 through 8, a tuple of transferable types
is transferable; in particular the pair of an unsigned integer and an
optional wrapper of a signed integer is transferable. -/
theorem tuples_of_transferable :
    ∀ (cfg : Config) (t1 t2 t3 t4 t5 t6 t7 t8 : Ty),
      is_transferable cfg t1 = true → is_transferable cfg t2 = true →
      is_transferable cfg t3 = true → is_transferable cfg t4 = true →
      is_transferable cfg t5 = true → is_transferable cfg t6 = true →
      is_transferable cfg t7 = true → is_transferable cfg t8 = true →
      is_transferable cfg (.tuple2 t1 t2) = true ∧
      is_transferable cfg (.tuple3 t1 t2 t3) = true ∧
      is_transferable cfg (.tuple4 t1 t2 t3 t4) = true ∧
      is_transferable cfg (.tuple5 t1 t2 t3 t4 t5) = true ∧
      is_transferable cfg (.tuple6 t1 t2 t3 t4 t5 t6) = true ∧
      is_transferable cfg (.tuple7 t1 t2 t3 t4 t5 t6 t7) = true ∧
      is_transferable cfg (.tuple8 t1 t2 t3 t4 t5 t6 t7 t8) = true ∧
      is_transferable cfg (.tuple2 .u32 (.option .i32)) = true := by
  intro cfg t1 t2 t3 t4 t5 t6 t7 t8 h1 h2 h3 h4 h5 h6 h7 h8
  simp [is_transferable, h1, h2, h3, h4, h5, h6, h7, h8]

/-- Witness for tuples_of_transferable at u8 components. -/
theorem tuples_of_transferable_witness :
    is_transferable allOn (.tuple2 .u32 (.option .i32)) = true :=
  (tuples_of_transferable allOn .u8 .u8 .u8 .u8 .u8 .u8 .u8 .u8
    (by decide) (by decide) (by decide) (by decide)
    (by decide) (by decide) (by decide) (by decide)).2.2.2.2.2.2.2

/-- Claim C6: a fixed-size array of any length, length zero included,
over a transferable element type is transferable; an array of four f32 is
transferable and the unit type is transferable unconditionally. -/
theorem array_any_length_transferable :
    ∀ (cfg : Config) (n : Nat) (t : Ty),
      (is_transferable cfg t = true →
        is_transferable cfg (.array t n) = true) ∧
      is_transferable cfg (.array .f32 4) = true ∧
      is_transferable cfg .unit = true := by
  intro cfg n t
  refine ⟨?_, rfl, rfl⟩
  intro h
  simpa [is_transferable] using h

/-- Witness for array_any_length_transferable at the empty array of u8. -/
theorem array_any_length_transferable_witness :
    is_transferable allOn (.array .u8 0) = true :=
  (array_any_length_transferable allOn 0 .u8).1 (by decide)

/-- Claim C7: no reference type and no raw pointer type is ever a member
of the Transferable set, under any feature configuration and for any
pointee type; the reference tag marker PhantomData of a reference to unit
is the sole reference-shaped admission and is a zero-sized marker, not a
reference. -/
theorem no_ref_no_rawPtr_transferable :
    ∀ (cfg : Config) (t : Ty),
      is_transferable cfg (.ref t) = false ∧
      is_transferable cfg (.rawPtr t) = false ∧
      is_transferable cfg (.phantomData (.ref .unit)) = true :=
  fun cfg t => ⟨rfl, rfl, by simp [is_transferable, isRefUnit]⟩

/-- Claim C8: evaluation of the classifier terminates on every candidate
type with recursion depth bounded by the nesting depth of the candidate:
fuel equal to the depth makes the fuel-bounded evaluator complete and
agree with the classifier. A nested product, a pair whose second element
is a triple of transferable primitives, is classified transferable. -/
theorem classifier_terminating :
    ∀ (cfg : Config) (t : Ty) (fuel : Nat),
      (depth t ≤ fuel →
        is_transferable_fuel cfg fuel t = some (is_transferable cfg t)) ∧
      is_transferable cfg (.tuple2 .u32 (.tuple3 .f32 .u8 .i64)) = true :=
  fun _ t fuel => ⟨is_transferable_fuel_complete fuel t, rfl⟩

/-- Witness for classifier_terminating at a depth three nested pair. -/
theorem classifier_terminating_witness :
    depth (.tuple2 .u32 (.tuple3 .f32 .u8 .i64)) ≤ 3 ∧
    is_transferable_fuel allOn 3 (.tuple2 .u32 (.tuple3 .f32 .u8 .i64)) =
      some (is_transferable allOn (.tuple2 .u32 (.tuple3 .f32 .u8 .i64))) :=
  ⟨by decide,
    (classifier_terminating allOn (.tuple2 .u32 (.tuple3 .f32 .u8 .i64)) 3).1
      (by decide)⟩

/-- Claim C9: each capability group admits exactly its own list and the
groups are independent. Every vek shape of lines 146 to 151 is
transferable exactly when the vek gate is on and its element is
transferable, and every glam type of lines 154 to 156 is transferable
exactly when the glam gate is on: membership for each group is a function
of that group gate alone, so toggling one group cannot change what
another confers. -/
theorem feature_groups_independent :
    ∀ (cfg : Config) (t : Ty),
      (is_transferable cfg (.vekVec2 t) = true ↔
        cfg.vek = true ∧ is_transferable cfg t = true) ∧
      (is_transferable cfg (.vekVec3 t) = true ↔
        cfg.vek = true ∧ is_transferable cfg t = true) ∧
      (is_transferable cfg (.vekVec4 t) = true ↔
        cfg.vek = true ∧ is_transferable cfg t = true) ∧
      (is_transferable cfg (.vekExtent2 t) = true ↔
        cfg.vek = true ∧ is_transferable cfg t = true) ∧
      (is_transferable cfg (.vekExtent3 t) = true ↔
        cfg.vek = true ∧ is_transferable cfg t = true) ∧
      (is_transferable cfg (.vekRgb t) = true ↔
        cfg.vek = true ∧ is_transferable cfg t = true) ∧
      (is_transferable cfg (.vekRgba t) = true ↔
        cfg.vek = true ∧ is_transferable cfg t = true) ∧
      (is_transferable cfg (.vekMat2 t) = true ↔
        cfg.vek = true ∧ is_transferable cfg t = true) ∧
      (is_transferable cfg (.vekMat3 t) = true ↔
        cfg.vek = true ∧ is_transferable cfg t = true) ∧
      (is_transferable cfg (.vekMat4 t) = true ↔
        cfg.vek = true ∧ is_transferable cfg t = true) ∧
      (is_transferable cfg (.vekCubicBezier2 t) = true ↔
        cfg.vek = true ∧ is_transferable cfg t = true) ∧
      (is_transferable cfg (.vekCubicBezier3 t) = true ↔
        cfg.vek = true ∧ is_transferable cfg t = true) ∧
      (is_transferable cfg (.vekQuaternion t) = true ↔
        cfg.vek = true ∧ is_transferable cfg t = true) ∧
      (is_transferable cfg .glamVec2 = cfg.glam) ∧
      (is_transferable cfg .glamVec3 = cfg.glam) ∧
      (is_transferable cfg .glamVec4 = cfg.glam) ∧
      (is_transferable cfg .glamIVec2 = cfg.glam) ∧
      (is_transferable cfg .glamIVec3 = cfg.glam) ∧
      (is_transferable cfg .glamIVec4 = cfg.glam) := by
  intro cfg t
  refine ⟨?_, ?_, ?_, ?_, ?_, ?_, ?_, ?_, ?_, ?_, ?_, ?_, ?_,
    rfl, rfl, rfl, rfl, rfl, rfl⟩ <;>
    simp [is_transferable]

/-- Claim C10: the mint admissions of lines 159 to 164 are exactly the
listed monomorphizations and are asymmetric across dimensions:
3-component vectors with u16, u32, i16, i32 and f32 elements, 2- and
4-component vectors with i16, i32 and f32 elements only, matrices with
f32 elements only, and no f64 instantiation of any shape. -/
theorem mint_exact_monomorphizations :
    ∀ (cfg : Config) (e : Ty),
      (is_transferable cfg (.mintVector2 e) = true ↔
        cfg.mint = true ∧ (e = .i16 ∨ e = .i32 ∨ e = .f32)) ∧
      (is_transferable cfg (.mintVector3 e) = true ↔
        cfg.mint = true ∧
          (e = .u16 ∨ e = .u32 ∨ e = .i16 ∨ e = .i32 ∨ e = .f32)) ∧
      (is_transferable cfg (.mintVector4 e) = true ↔
        cfg.mint = true ∧ (e = .i16 ∨ e = .i32 ∨ e = .f32)) ∧
      (is_transferable cfg (.mintColumnMatrix2 e) = true ↔
        cfg.mint = true ∧ e = .f32) ∧
      (is_transferable cfg (.mintColumnMatrix3 e) = true ↔
        cfg.mint = true ∧ e = .f32) ∧
      (is_transferable cfg (.mintColumnMatrix4 e) = true ↔
        cfg.mint = true ∧ e = .f32) ∧
      (is_transferable cfg (.mintColumnMatrix3x4 e) = true ↔
        cfg.mint = true ∧ e = .f32) ∧
      (is_transferable cfg (.mintRowMatrix2 e) = true ↔
        cfg.mint = true ∧ e = .f32) ∧
      (is_transferable cfg (.mintRowMatrix3 e) = true ↔
        cfg.mint = true ∧ e = .f32) ∧
      (is_transferable cfg (.mintRowMatrix4 e) = true ↔
        cfg.mint = true ∧ e = .f32) ∧
      (is_transferable cfg (.mintRowMatrix3x4 e) = true ↔
        cfg.mint = true ∧ e = .f32) ∧
      is_transferable cfg (.mintVector2 .u16) = false ∧
      is_transferable cfg (.mintVector4 .u32) = false ∧
      is_transferable cfg (.mintVector2 .f64) = false ∧
      is_transferable cfg (.mintVector3 .f64) = false ∧
      is_transferable cfg (.mintVector4 .f64) = false ∧
      is_transferable cfg (.mintColumnMatrix2 .f64) = false ∧
      is_transferable cfg (.mintRowMatrix4 .f64) = false := by
  intro cfg e
  refine ⟨?_, ?_, ?_, ?_, ?_, ?_, ?_, ?_, ?_, ?_, ?_,
    ?_, ?_, ?_, ?_, ?_, ?_, ?_⟩ <;>
    first
      | (simp [is_transferable, mintSignedFloatElem_iff, mintVec3Elem_iff,
          mintF32Elem_iff]; done)
      | simp [is_transferable, mintSignedFloatElem, mintVec3Elem, mintF32Elem]

end Cust
